import Mathlib

/-!
Verification of the cosmos-sdk schema/indexer core against its specification.

The development shallowly embeds the Go sources:
  * `indexer/base/kind.go` — the value-kind registry (`Kind`, `Kind.Validate`,
    `Kind.ValidateValueType`, `KindForGoValue`);
  * `schema/indexer/sync.go` — the sync-and-sanity guard
    (`addSyncAndSanityCheck`, `doSyncAndSanityCheck`);
  * the indexer manager (`StartManager`, `unmarshalConfig`).

Go machine integers are embedded as `Int`/`Nat`; fallible Go functions
returning `error` are embedded as `Except String`.  Types defined in parts of
the repository that are not among the given sources (the appdata listener
bundle, the module filter, `decoding.Sync`) are modelled from the spec and
carry a doc comment saying so.
-/

/-! ## Value kinds: embedding of indexer/base/kind.go -/

/-- Kind represents the basic type of a field in the table schema.
In Go, `type Kind int`; we embed it as `Int`. -/
abbrev Kind := Int

/-- InvalidKind indicates an invalid type (iota value 0). -/
def InvalidKind : Kind := (0 : Int)

/-- StringKind accepts a Go string or a value implementing fmt.Stringer. -/
def StringKind : Kind := (1 : Int)

/-- BytesKind accepts a Go byte slice. -/
def BytesKind : Kind := (2 : Int)

/-- Int8Kind accepts the Go type int8. -/
def Int8Kind : Kind := (3 : Int)

/-- Uint8Kind accepts the Go type uint8. -/
def Uint8Kind : Kind := (4 : Int)

/-- Int16Kind accepts the Go type int16. -/
def Int16Kind : Kind := (5 : Int)

/-- Uint16Kind accepts the Go type uint16. -/
def Uint16Kind : Kind := (6 : Int)

/-- Int32Kind accepts the Go type int32. -/
def Int32Kind : Kind := (7 : Int)

/-- Uint32Kind accepts the Go type uint32. -/
def Uint32Kind : Kind := (8 : Int)

/-- Int64Kind accepts the Go type int64. -/
def Int64Kind : Kind := (9 : Int)

/-- Uint64Kind accepts the Go type uint64. -/
def Uint64Kind : Kind := (10 : Int)

/-- IntegerKind: arbitrary precision integer; accepts int64, string, or a
fmt.Stringer whose output is formatted as an integer. -/
def IntegerKind : Kind := (11 : Int)

/-- DecimalKind: arbitrary precision decimal; accepts string or fmt.Stringer. -/
def DecimalKind : Kind := (12 : Int)

/-- BoolKind accepts the Go type bool. -/
def BoolKind : Kind := (13 : Int)

/-- TimeKind accepts the Go type time.Time. -/
def TimeKind : Kind := (14 : Int)

/-- DurationKind accepts the Go type time.Duration. -/
def DurationKind : Kind := (15 : Int)

/-- Float32Kind accepts the Go type float32. -/
def Float32Kind : Kind := (16 : Int)

/-- Float64Kind accepts the Go type float64. -/
def Float64Kind : Kind := (17 : Int)

/-- Bech32AddressKind accepts string, byte slice, or fmt.Stringer. -/
def Bech32AddressKind : Kind := (18 : Int)

/-- EnumKind accepts string or fmt.Stringer. -/
def EnumKind : Kind := (19 : Int)

/-- JSONKind accepts json.RawMessage or anything marshalable to JSON. -/
def JSONKind : Kind := (20 : Int)

/-- Validate returns an error if the kind is invalid (kind.go lines 91-99). -/
def Kind.Validate (t : Kind) : Except String Unit :=
  if t ≤ InvalidKind then Except.error ("unknown type: " ++ toString t)
  else if JSONKind < t then Except.error ("invalid type: " ++ toString t)
  else Except.ok ()

/-- A Go runtime value, abstracted to the aspects the kind system inspects:
its dynamic type (one constructor per concretely handled Go type, plus a
constructor for any other type implementing fmt.Stringer and one for any other
type not implementing it) and its otherwise-uninspected payload.  The numeric
payloads are carried as `Int`/`Nat` since the kind system never computes with
them; `float32`/`float64` payloads are likewise carried as opaque integers
because only the dynamic type is ever examined. -/
inductive GoValue where
  | str (s : String)
  | bytes (b : List Nat)
  | int8 (n : Int)
  | uint8 (n : Nat)
  | int16 (n : Int)
  | uint16 (n : Nat)
  | int32 (n : Int)
  | uint32 (n : Nat)
  | int64 (n : Int)
  | uint64 (n : Nat)
  | float32 (bits : Nat)
  | float64 (bits : Nat)
  | boolean (b : Bool)
  | timeValue (t : Int)
  | durationValue (d : Int)
  | jsonRawMessage (s : String)
  | stringer (typeName : String) (s : String)
  | otherValue (typeName : String)
deriving DecidableEq

/-- The outcome of the Go type assertion `value.(string)`. -/
def GoValue.isGoString : GoValue → Bool
  | .str _ => true
  | _ => false

/-- The outcome of the Go interface check `value.(fmt.Stringer)`: `time.Time`,
`time.Duration` and the dedicated stringer constructor implement the
`String() string` method; none of the other embedded types do. -/
def GoValue.isStringer : GoValue → Bool
  | .timeValue _ => true
  | .durationValue _ => true
  | .stringer _ _ => true
  | _ => false

/-- The outcome of `value.([]byte)`.  Note that `json.RawMessage` is a distinct
defined type in Go and does not match a `[]byte` type assertion. -/
def GoValue.isGoBytes : GoValue → Bool
  | .bytes _ => true
  | _ => false

/-- The outcome of `value.(int8)`. -/
def GoValue.isGoInt8 : GoValue → Bool
  | .int8 _ => true
  | _ => false

/-- The outcome of `value.(uint8)`. -/
def GoValue.isGoUint8 : GoValue → Bool
  | .uint8 _ => true
  | _ => false

/-- The outcome of `value.(int16)`. -/
def GoValue.isGoInt16 : GoValue → Bool
  | .int16 _ => true
  | _ => false

/-- The outcome of `value.(uint16)`. -/
def GoValue.isGoUint16 : GoValue → Bool
  | .uint16 _ => true
  | _ => false

/-- The outcome of `value.(int32)`. -/
def GoValue.isGoInt32 : GoValue → Bool
  | .int32 _ => true
  | _ => false

/-- The outcome of `value.(uint32)`. -/
def GoValue.isGoUint32 : GoValue → Bool
  | .uint32 _ => true
  | _ => false

/-- The outcome of `value.(int64)`. -/
def GoValue.isGoInt64 : GoValue → Bool
  | .int64 _ => true
  | _ => false

/-- The outcome of `value.(uint64)`. -/
def GoValue.isGoUint64 : GoValue → Bool
  | .uint64 _ => true
  | _ => false

/-- The outcome of `value.(float32)`. -/
def GoValue.isGoFloat32 : GoValue → Bool
  | .float32 _ => true
  | _ => false

/-- The outcome of `value.(float64)`. -/
def GoValue.isGoFloat64 : GoValue → Bool
  | .float64 _ => true
  | _ => false

/-- The outcome of `value.(bool)`. -/
def GoValue.isGoBool : GoValue → Bool
  | .boolean _ => true
  | _ => false

/-- The outcome of `value.(time.Time)`. -/
def GoValue.isGoTime : GoValue → Bool
  | .timeValue _ => true
  | _ => false

/-- The outcome of `value.(time.Duration)`. -/
def GoValue.isGoDuration : GoValue → Bool
  | .durationValue _ => true
  | _ => false

/-- The outcome of `value.(json.RawMessage)`. -/
def GoValue.isGoJSONRaw : GoValue → Bool
  | .jsonRawMessage _ => true
  | _ => false

/-- The Go dynamic type name of a value, as `%T` would print it (the exact
text for the stringer/other constructors is the carried type name). -/
def GoValue.goTypeName : GoValue → String
  | .str _ => "string"
  | .bytes _ => "[]uint8"
  | .int8 _ => "int8"
  | .uint8 _ => "uint8"
  | .int16 _ => "int16"
  | .uint16 _ => "uint16"
  | .int32 _ => "int32"
  | .uint32 _ => "uint32"
  | .int64 _ => "int64"
  | .uint64 _ => "uint64"
  | .float32 _ => "float32"
  | .float64 _ => "float64"
  | .boolean _ => "bool"
  | .timeValue _ => "time.Time"
  | .durationValue _ => "time.Duration"
  | .jsonRawMessage _ => "json.RawMessage"
  | .stringer n _ => n
  | .otherValue n => n

/-- ValidateValueType returns an error if the value is not of the Go type
specified by the kind (kind.go lines 106-216).  The Go `switch t` statement is
embedded as a chain of equality tests in the source's case order. -/
def Kind.ValidateValueType (t : Kind) (value : GoValue) : Except String Unit :=
  if t = StringKind then
    if !value.isGoString && !value.isStringer then
      Except.error ("expected string or type that implements fmt.Stringer, got " ++ value.goTypeName)
    else Except.ok ()
  else if t = BytesKind then
    if !value.isGoBytes then Except.error ("expected []byte, got " ++ value.goTypeName)
    else Except.ok ()
  else if t = Int8Kind then
    if !value.isGoInt8 then Except.error ("expected int8, got " ++ value.goTypeName)
    else Except.ok ()
  else if t = Uint8Kind then
    if !value.isGoUint8 then Except.error ("expected uint8, got " ++ value.goTypeName)
    else Except.ok ()
  else if t = Int16Kind then
    if !value.isGoInt16 then Except.error ("expected int16, got " ++ value.goTypeName)
    else Except.ok ()
  else if t = Uint16Kind then
    if !value.isGoUint16 then Except.error ("expected uint16, got " ++ value.goTypeName)
    else Except.ok ()
  else if t = Int32Kind then
    if !value.isGoInt32 then Except.error ("expected int32, got " ++ value.goTypeName)
    else Except.ok ()
  else if t = Uint32Kind then
    if !value.isGoUint32 then Except.error ("expected uint32, got " ++ value.goTypeName)
    else Except.ok ()
  else if t = Int64Kind then
    if !value.isGoInt64 then Except.error ("expected int64, got " ++ value.goTypeName)
    else Except.ok ()
  else if t = Uint64Kind then
    if !value.isGoUint64 then Except.error ("expected uint64, got " ++ value.goTypeName)
    else Except.ok ()
  else if t = IntegerKind then
    if !value.isGoString && !value.isStringer && !value.isGoInt64 then
      Except.error ("expected string or type that implements fmt.Stringer, got " ++ value.goTypeName)
    else Except.ok ()
  else if t = DecimalKind then
    if !value.isGoString && !value.isStringer then
      Except.error ("expected string or type that implements fmt.Stringer, got " ++ value.goTypeName)
    else Except.ok ()
  else if t = BoolKind then
    if !value.isGoBool then Except.error ("expected bool, got " ++ value.goTypeName)
    else Except.ok ()
  else if t = TimeKind then
    if !value.isGoTime then Except.error ("expected time.Time, got " ++ value.goTypeName)
    else Except.ok ()
  else if t = DurationKind then
    if !value.isGoDuration then Except.error ("expected time.Duration, got " ++ value.goTypeName)
    else Except.ok ()
  else if t = Float32Kind then
    if !value.isGoFloat32 then Except.error ("expected float32, got " ++ value.goTypeName)
    else Except.ok ()
  else if t = Float64Kind then
    if !value.isGoFloat64 then Except.error ("expected float64, got " ++ value.goTypeName)
    else Except.ok ()
  else if t = Bech32AddressKind then
    if !value.isGoString && !value.isGoBytes && !value.isStringer then
      Except.error ("expected string or []byte, got " ++ value.goTypeName)
    else Except.ok ()
  else if t = EnumKind then
    if !value.isGoString && !value.isStringer then
      Except.error ("expected string or type that implements fmt.Stringer, got " ++ value.goTypeName)
    else Except.ok ()
  else if t = JSONKind then
    Except.ok ()
  else
    Except.error ("invalid type: " ++ toString t)

/-- KindForGoValue finds the simplest kind that can represent the given Go
value (kind.go lines 272-309).  The Go `switch value.(type)` matches cases in
order, so the leading `case string, fmt.Stringer` captures every value
implementing fmt.Stringer (including time.Time and time.Duration) before the
later concrete cases are consulted. -/
def KindForGoValue (value : GoValue) : Kind :=
  if value.isGoString || value.isStringer then StringKind
  else if value.isGoBytes then BytesKind
  else if value.isGoInt8 then Int8Kind
  else if value.isGoUint8 then Uint8Kind
  else if value.isGoInt16 then Int16Kind
  else if value.isGoUint16 then Uint16Kind
  else if value.isGoInt32 then Int32Kind
  else if value.isGoUint32 then Uint32Kind
  else if value.isGoInt64 then Int64Kind
  else if value.isGoUint64 then Uint64Kind
  else if value.isGoFloat32 then Float32Kind
  else if value.isGoFloat64 then Float64Kind
  else if value.isGoBool then BoolKind
  else if value.isGoTime then TimeKind
  else if value.isGoDuration then DurationKind
  else if value.isGoJSONRaw then JSONKind
  else JSONKind

/-- Spec-side definition for the refinement claim about `ValidateValueType`:
the documented acceptance set of each kind, read off the doc comments on the
`Kind` constants in kind.go (StringKind: string or fmt.Stringer; BytesKind:
byte slice; the fixed-width numeric, bool, time and duration kinds: exactly
their Go type; IntegerKind: int64, string or fmt.Stringer; DecimalKind and
EnumKind: string or fmt.Stringer; Bech32AddressKind: string, byte slice or
fmt.Stringer; JSONKind: any value). -/
def documentedAcceptance (t : Kind) (value : GoValue) : Bool :=
  if t = StringKind then value.isGoString || value.isStringer
  else if t = BytesKind then value.isGoBytes
  else if t = Int8Kind then value.isGoInt8
  else if t = Uint8Kind then value.isGoUint8
  else if t = Int16Kind then value.isGoInt16
  else if t = Uint16Kind then value.isGoUint16
  else if t = Int32Kind then value.isGoInt32
  else if t = Uint32Kind then value.isGoUint32
  else if t = Int64Kind then value.isGoInt64
  else if t = Uint64Kind then value.isGoUint64
  else if t = IntegerKind then value.isGoInt64 || value.isGoString || value.isStringer
  else if t = DecimalKind then value.isGoString || value.isStringer
  else if t = BoolKind then value.isGoBool
  else if t = TimeKind then value.isGoTime
  else if t = DurationKind then value.isGoDuration
  else if t = Float32Kind then value.isGoFloat32
  else if t = Float64Kind then value.isGoFloat64
  else if t = Bech32AddressKind then value.isGoString || value.isGoBytes || value.isStringer
  else if t = EnumKind then value.isGoString || value.isStringer
  else if t = JSONKind then true
  else false

/-- Spec-side definition: the concretely-typed natives recognized by
best-effort kind inference (fixed-width numerics, boolean, time instant, time
span, raw byte sequence, string-like, raw JSON); everything else is
unrecognized and must fall back to JSONKind. -/
def recognizedNative (value : GoValue) : Bool :=
  value.isGoString || value.isStringer || value.isGoBytes ||
  value.isGoInt8 || value.isGoUint8 || value.isGoInt16 || value.isGoUint16 ||
  value.isGoInt32 || value.isGoUint32 || value.isGoInt64 || value.isGoUint64 ||
  value.isGoFloat32 || value.isGoFloat64 || value.isGoBool ||
  value.isGoTime || value.isGoDuration || value.isGoJSONRaw

/-! ## Sync guard: embedding of schema/indexer/sync.go -/

/-- Modelled from the spec: a module filter configuration is an
inclusion/exclusion specification over module names — an explicit allow-list,
a deny-list, or all modules when neither is set.  Its defining source file
(the module filter component) is not among the given sources. -/
structure ModuleFilterConfig where
  includeModules : Option (List String)
  excludeModules : Option (List String)
deriving DecidableEq

/-- Modelled from the spec: a module filter must validate to a
non-contradictory rule set; specifying both an allow-list and a deny-list at
once is rejected as self-contradictory. -/
def ModuleFilterConfig.Validate (f : ModuleFilterConfig) : Except String Unit :=
  if f.includeModules.isSome && f.excludeModules.isSome then
    Except.error "cannot specify both include and exclude module filters"
  else Except.ok ()

/-- Modelled from the spec: a block-start event carries the height of the
block being started (`appdata.StartBlockData`; the appdata package is not
among the given sources).  The Go height is a uint64, embedded as `Nat`. -/
structure StartBlockData where
  Height : Nat
deriving DecidableEq

/-- Modelled from the spec: a listener is a bundle of optional callback slots,
one per category of state-change event; a slot left unset is a no-op.  Only
the block-start slot is inspected by the sync guard, so only it is carried
here.  The callback returns an error or succeeds. -/
structure Listener where
  StartBlock : Option (StartBlockData → Except String Unit)

/-- An observable action performed by the sync guard while handling a
block-start event: a catch-up sync call (recording the module filter it was
scoped by and the height range it covers), or an invocation of the underlying
listener's StartBlock callback. -/
inductive GuardEvent where
  | catchUpSync (filter : ModuleFilterConfig) (fromHeight toHeight : Nat)
  | startBlockCall (height : Nat)
deriving DecidableEq

/-- Whether a guard event is a catch-up sync call. -/
def GuardEvent.isCatchUpSync : GuardEvent → Bool
  | .catchUpSync _ _ _ => true
  | _ => false

/-- Modelled from the spec: the environment of a catch-up sync call.
`decoding.Sync` (package cosmossdk.io/schema/decoding, not among the given
sources) replays historical write events from the Sync Source; the Sync Source
reflects committed state as of some height (`sourceHeight`), so the replay
covers heights 1 through `sourceHeight`.  `syncResult` is the outcome of the
replay (the underlying listener or the source may fail). -/
structure SyncEnv where
  sourceHeight : Nat
  syncResult : Except String Unit

/-- Modelled from the spec: the call
`decoding.Sync(listener, mgrOpts.SyncSource, mgrOpts.Resolver, decoding.SyncOptions(ModuleFilter ...))`
performs one full catch-up replay of heights 1 through the sync source's
state height, scoped by the module filter, and returns its outcome. -/
def decodingSync (env : SyncEnv) (moduleFilter : ModuleFilterConfig) :
    Except String Unit × List GuardEvent :=
  (env.syncResult, [GuardEvent.catchUpSync moduleFilter 1 env.sourceHeight])

/-- The out-of-sync error message built by sync.go line 46
(`fmt.Errorf` with the persisted height and the observed height). -/
def outOfSyncMessage (lastBlockPersisted : Int) (height : Nat) : String :=
  "fatal error: indexer is out of sync, last block persisted: " ++
    toString lastBlockPersisted ++ ", current block height: " ++ toString height

/-- doSyncAndSanityCheck (sync.go lines 34-50): on the first observed
block-start event, decide whether to do nothing, perform a catch-up sync, or
fail with a fatal out-of-sync error.  Returns the error outcome together with
the trace of sync calls performed. -/
def doSyncAndSanityCheck (lastBlockPersisted : Int) (data : StartBlockData)
    (env : SyncEnv) (moduleFilter : ModuleFilterConfig) :
    Except String Unit × List GuardEvent :=
  if lastBlockPersisted = 0 then
    if data.Height = 1 then
      (Except.ok (), [])
    else
      decodingSync env moduleFilter
  else if lastBlockPersisted + 1 ≠ (data.Height : Int) then
    (Except.error (outOfSyncMessage lastBlockPersisted data.Height), [])
  else
    (Except.ok (), [])

/-- The observable outcome of delivering one block-start event to the guarded
listener: the error returned to the caller, the value of the guard's
once-flag after the call (Go's captured `initialized` variable, renamed here
to `inited`), and the trace of actions performed during the call. -/
structure StepOutput where
  result : Except String Unit
  inited : Bool
  trace : List GuardEvent

/-- Invoking the captured underlying StartBlock callback: Go's
`if startBlock != nil return startBlock(data); return nil`. -/
def callUnderlying (startBlock : Option (StartBlockData → Except String Unit))
    (data : StartBlockData) : Except String Unit :=
  match startBlock with
  | some f => f data
  | none => Except.ok ()

/-- The trace of underlying StartBlock invocations: one call when the slot is
set, none when it is nil. -/
def startBlockTrace (startBlock : Option (StartBlockData → Except String Unit))
    (data : StartBlockData) : List GuardEvent :=
  match startBlock with
  | some _ => [GuardEvent.startBlockCall data.Height]
  | none => []

/-- The guarded StartBlock closure installed by addSyncAndSanityCheck
(sync.go lines 19-30), written as an explicit step function on the captured
once-flag: if the flag is unset, run doSyncAndSanityCheck (returning its error
and leaving the flag unset on failure, setting it on success), then forward
the event to the captured original StartBlock. -/
def guardedStartBlock (lastBlockPersisted : Int)
    (startBlock : Option (StartBlockData → Except String Unit))
    (env : SyncEnv) (moduleFilter : ModuleFilterConfig)
    (inited : Bool) (data : StartBlockData) : StepOutput :=
  if inited then
    { result := callUnderlying startBlock data
      inited := true
      trace := startBlockTrace startBlock data }
  else
    match doSyncAndSanityCheck lastBlockPersisted data env moduleFilter with
    | (Except.error e, tr) =>
        { result := Except.error e, inited := false, trace := tr }
    | (Except.ok _, tr) =>
        { result := callUnderlying startBlock data
          inited := true
          trace := tr ++ startBlockTrace startBlock data }

/-- addSyncAndSanityCheck (sync.go lines 10-32), as a step function on the
guard's once-flag: when `lastBlockPersisted == -1` the listener is returned
unchanged (no check, no flag, events forwarded directly to the original
StartBlock); otherwise the StartBlock slot is replaced by the guarded
closure. -/
def addSyncAndSanityCheck (lastBlockPersisted : Int) (listener : Listener)
    (env : SyncEnv) (moduleFilter : ModuleFilterConfig) :
    Bool → StartBlockData → StepOutput :=
  if lastBlockPersisted = -1 then
    fun inited data =>
      { result := callUnderlying listener.StartBlock data
        inited := inited
        trace := startBlockTrace listener.StartBlock data }
  else
    guardedStartBlock lastBlockPersisted listener.StartBlock env moduleFilter

/-! ## Manager: embedding of the indexer manager source (StartManager) -/

/-- A listener value as built by the manager, viewed structurally: the
concrete backend listener returned by a target's initializer, wrapped in
zero or more module-filter and sync-guard layers, and multiplexed.  A wrapper
layer processes an event before forwarding it to the listener it wraps, so
the outermost constructor is the first layer an event passes through. -/
inductive WrappedListener where
  | backend (name : String)
  | moduleFilterWrap (filter : ModuleFilterConfig) (inner : WrappedListener)
  | syncGuardWrap (lastBlockPersisted : Int) (filter : ModuleFilterConfig)
      (inner : WrappedListener)
  | asyncMux (inners : List WrappedListener)

/-- Modelled from the spec: per-target filter configuration; `Modules` is the
module-level inclusion/exclusion rule set.  The source file defining the
filter configuration type is not among the given sources; the manager uses
its `Validate`, `Apply` and `Modules` members. -/
structure FilterConfig where
  Modules : ModuleFilterConfig

/-- Modelled from the spec: validating a target's filter validates its module
rule set (rejecting self-contradictory include/exclude rules). -/
def FilterConfig.Validate (f : FilterConfig) : Except String Unit :=
  f.Modules.Validate

/-- Modelled from the spec: `Filter.Apply(listener)` returns a wrapped
listener whose per-event callbacks early-return for events of modules not
admitted by the filter; structurally, it adds a module-filter layer outside
the given listener. -/
def FilterConfig.Apply (f : FilterConfig) (l : WrappedListener) : WrappedListener :=
  WrappedListener.moduleFilterWrap f.Modules l

/-- Modelled from the spec: applying a root module filter to the multiplexed
root listener adds a module-filter layer outside it. -/
def ModuleFilterConfig.Apply (f : ModuleFilterConfig) (l : WrappedListener) :
    WrappedListener :=
  WrappedListener.moduleFilterWrap f l

/-- The structural effect of addSyncAndSanityCheck (sync.go lines 10-32) on a
listener: with `lastBlockPersisted == -1` the listener is returned unchanged;
otherwise a sync-guard layer is added outside it (its behaviour is the step
function `addSyncAndSanityCheck` above). -/
def addSyncAndSanityCheckWrap (lastBlockPersisted : Int)
    (l : WrappedListener) (moduleFilter : ModuleFilterConfig) : WrappedListener :=
  if lastBlockPersisted = -1 then l
  else WrappedListener.syncGuardWrap lastBlockPersisted moduleFilter l

/-- Modelled from the spec: a named indexer target's configuration entry
(`Config` in the manager source, whose defining file is not among the given
sources): the registered type name, the filter, and backend-specific settings
(carried opaquely and irrelevant here). -/
structure Config where
  type : String
  Filter : FilterConfig

/-- Modelled from the spec: the result of a target initializer: the concrete
backend listener and the last block height the target persisted
(`-1` when the target does not track persistence). -/
structure InitResult where
  Listener : WrappedListener
  LastBlockPersisted : Int

/-- A target initializer as registered in the indexer target registry; the
context and logger parameters of Go's `InitParams` have no observable effect
on the result and are omitted. -/
def IndexerInitFunc := Config → Except String InitResult

/-- The process-wide indexer target registry (`indexerRegistry`), embedded as
an association list passed explicitly to the manager. -/
def IndexerRegistry := List (String × IndexerInitFunc)

/-- ManagerConfig (manager source, lines 37-40): the map of named indexer
targets to their configuration, embedded as an association list (Go map
iteration order is abstracted as the list order). -/
structure ManagerConfig where
  Target : List (String × Config)

/-- The user-supplied configuration value handed to the manager
(`ManagerOptions.Config`, a Go `interface` value).  It is either a plain
key/value mapping, an already JSON-encoded message, or a value of some other
type; for the first two we carry the outcome of the external JSON round trip
(the encoding/json library is not part of these sources). -/
inductive ConfigValue where
  | mapValue (decoded : Except String ManagerConfig)
  | rawJSON (decoded : Except String ManagerConfig)
  | otherValue (typeName : String)

/-- unmarshalConfig (manager source, lines 119-138): a plain map is marshaled
to JSON and decoded, raw JSON is decoded directly, and any other input type
fails with a conversion error. -/
def unmarshalConfig : ConfigValue → Except String ManagerConfig
  | ConfigValue.mapValue d => d
  | ConfigValue.rawJSON d => d
  | ConfigValue.otherValue t =>
      Except.error ("can't convert " ++ t ++ " to indexer.ManagerConfig")

/-- The per-target wrapping performed by StartManager (manager source, lines
98-99): first `targetCfg.Filter.Apply(initRes.Listener)`, then
`addSyncAndSanityCheck(initRes.LastBlockPersisted, listener, opts, targetCfg.Filter.Modules)`. -/
def buildTargetListener (filter : FilterConfig) (lastBlockPersisted : Int)
    (backendListener : WrappedListener) : WrappedListener :=
  addSyncAndSanityCheckWrap lastBlockPersisted (filter.Apply backendListener)
    filter.Modules

/-- Modelled from the spec: combining two module filters yields a filter
admitting a module iff either input admits it (union semantics).  A filter
with an allow-list admits exactly the listed modules; one with a deny-list
admits everything else; one with neither admits everything. -/
def combineTwoModuleFilters (a b : ModuleFilterConfig) : ModuleFilterConfig :=
  match a.includeModules, a.excludeModules, b.includeModules, b.excludeModules with
  | none, none, _, _ => { includeModules := none, excludeModules := none }
  | _, _, none, none => { includeModules := none, excludeModules := none }
  | some ia, _, some ib, _ =>
      { includeModules := some (ia ++ ib), excludeModules := none }
  | some ia, _, none, some eb =>
      { includeModules := none, excludeModules := some (eb.filter (fun m => m ∉ ia)) }
  | none, some ea, some ib, _ =>
      { includeModules := none, excludeModules := some (ea.filter (fun m => m ∉ ib)) }
  | none, some ea, none, some eb =>
      { includeModules := none, excludeModules := some (ea.filter (fun m => m ∈ eb)) }

/-- Modelled from the spec: combining all per-target filters into the root
filter with union semantics; combining no filters admits nothing. -/
def combineModuleFilters (fs : List ModuleFilterConfig) : ModuleFilterConfig :=
  match fs with
  | [] => { includeModules := some [], excludeModules := none }
  | f :: rest => combineTwoModuleFilters f (combineModuleFilters rest)

/-- ManagerResult (manager source, lines 42-45): the root listener and the
combined root module filter.  The Go zero value (returned alongside every
error) exposes no listener; we embed the zero value as `none` in both
fields. -/
structure ManagerResult where
  Listener : Option WrappedListener
  ModuleFilter : Option ModuleFilterConfig

/-- The zero-valued ManagerResult returned by every error path of
StartManager. -/
def zeroManagerResult : ManagerResult :=
  { Listener := none, ModuleFilter := none }

/-- The per-target loop of StartManager (manager source, lines 72-103):
resolve the target type in the registry, validate the filter, invoke the
initializer, wrap the resulting listener, and collect listeners and module
filters; the first failure aborts with its error.  Logging and logger scoping
have no observable effect on the result and are omitted. -/
def processTargets (registry : IndexerRegistry) :
    List (String × Config) →
    Except String (List WrappedListener × List ModuleFilterConfig)
  | [] => Except.ok ([], [])
  | (targetName, targetCfg) :: rest =>
    match registry.lookup targetCfg.type with
    | none => Except.error ("indexer type \x22" ++ targetCfg.type ++ "\x22 not found")
    | some initFunc =>
      match targetCfg.Filter.Validate with
      | Except.error e =>
          Except.error ("invalid filter for target \x22" ++ targetName ++ "\x22: " ++ e)
      | Except.ok _ =>
        match initFunc targetCfg with
        | Except.error e => Except.error e
        | Except.ok initRes =>
          match processTargets registry rest with
          | Except.error e => Except.error e
          | Except.ok (ls, fs) =>
            Except.ok
              (buildTargetListener targetCfg.Filter initRes.LastBlockPersisted
                  initRes.Listener :: ls,
                targetCfg.Filter.Modules :: fs)

/-- StartManager (manager source, lines 49-117): convert the configuration,
build every target's wrapped listener, multiplex them into one asynchronous
root listener, apply the combined root module filter, and return the result;
any failure returns the zero ManagerResult together with the error.  The Go
pair return `(ManagerResult, error)` is embedded directly as a pair. -/
def StartManager (registry : IndexerRegistry) (config : ConfigValue) :
    ManagerResult × Option String :=
  match unmarshalConfig config with
  | Except.error e => (zeroManagerResult, some e)
  | Except.ok cfg =>
    match processTargets registry cfg.Target with
    | Except.error e => (zeroManagerResult, some e)
    | Except.ok (listeners, allModuleFilters) =>
      let rootModuleFilter := combineModuleFilters allModuleFilters
      ({ Listener :=
            some (rootModuleFilter.Apply (WrappedListener.asyncMux listeners)),
          ModuleFilter := some rootModuleFilter }, none)

/-! ## Theorems about the value-kind registry -/

/-- C7: for every integer `k`, `Kind.Validate k` succeeds if and only if
`InvalidKind < k ≤ JSONKind`; for every `k` outside that range it returns an
error. -/
theorem kind_validate_succeeds_iff_in_range (k : Int) :
    (Kind.Validate k = Except.ok () ↔ InvalidKind < k ∧ k ≤ JSONKind) ∧
    (¬(InvalidKind < k ∧ k ≤ JSONKind) → ∃ e, Kind.Validate k = Except.error e) := by
  have hiff : (InvalidKind < k ∧ k ≤ JSONKind) ↔ ((0 : Int) < k ∧ k ≤ (20 : Int)) :=
    Iff.rfl
  rw [hiff]
  unfold Kind.Validate InvalidKind JSONKind
  split_ifs with h1 h2
  · replace h1 : k ≤ (0 : Int) := h1
    exact ⟨by constructor <;> intro h <;> [exact absurd h (by simp); omega],
           fun h => ⟨_, rfl⟩⟩
  · replace h2 : (20 : Int) < k := h2
    exact ⟨by constructor <;> intro h <;> [exact absurd h (by simp); omega],
           fun h => ⟨_, rfl⟩⟩
  · replace h1 : ¬ k ≤ (0 : Int) := h1
    replace h2 : ¬ (20 : Int) < k := h2
    exact ⟨by simp; omega, fun h => absurd ⟨by omega, by omega⟩ h⟩

/-- Witness for C7: the theorem applied at the in-range kind `StringKind` and
at the out-of-range integer 21. -/
theorem kind_validate_succeeds_iff_in_range_witness :
    Kind.Validate StringKind = Except.ok () ∧
    (∃ e, Kind.Validate 21 = Except.error e) :=
  ⟨(kind_validate_succeeds_iff_in_range StringKind).1.mpr (by decide),
   (kind_validate_succeeds_iff_in_range 21).2 (by decide)⟩

set_option maxHeartbeats 1600000

/-- C8: for every valid kind other than JSONKind, `ValidateValueType` returns
an error exactly when the value's runtime type is outside that kind's
documented acceptance set; JSONKind accepts every value; and no semantic
validation of string-encoded integers, decimals, addresses, or enums is
performed (nonsense string payloads pass those kinds). -/
theorem validateValueType_matches_documented_acceptance (t : Int) (v : GoValue)
    (h1 : InvalidKind < t) (h2 : t ≤ JSONKind) (h3 : t ≠ JSONKind) :
    ((Kind.ValidateValueType t v = Except.ok ()) ↔ documentedAcceptance t v = true) ∧
    (∀ w : GoValue, Kind.ValidateValueType JSONKind w = Except.ok ()) ∧
    Kind.ValidateValueType IntegerKind (GoValue.str "not an integer") = Except.ok () ∧
    Kind.ValidateValueType DecimalKind (GoValue.str "not a decimal") = Except.ok () ∧
    Kind.ValidateValueType Bech32AddressKind (GoValue.str "not an address") = Except.ok () ∧
    Kind.ValidateValueType EnumKind (GoValue.str "not an enum member") = Except.ok () := by
  refine ⟨?_, fun w => rfl, rfl, rfl, rfl, rfl⟩
  have h1' : (0 : Int) < t := h1
  have h2' : t ≤ (20 : Int) := h2
  have h3' : t ≠ (20 : Int) := h3
  clear h1 h2 h3
  interval_cases t <;>
    first
    | exact absurd rfl h3'
    | cases v <;>
        simp [Kind.ValidateValueType, documentedAcceptance,
          StringKind, BytesKind, Int8Kind, Uint8Kind, Int16Kind, Uint16Kind,
          Int32Kind, Uint32Kind, Int64Kind, Uint64Kind, IntegerKind, DecimalKind,
          BoolKind, TimeKind, DurationKind, Float32Kind, Float64Kind,
          Bech32AddressKind, EnumKind, JSONKind,
          GoValue.isGoString, GoValue.isStringer, GoValue.isGoBytes,
          GoValue.isGoInt8, GoValue.isGoUint8, GoValue.isGoInt16,
          GoValue.isGoUint16, GoValue.isGoInt32, GoValue.isGoUint32,
          GoValue.isGoInt64, GoValue.isGoUint64, GoValue.isGoFloat32,
          GoValue.isGoFloat64, GoValue.isGoBool, GoValue.isGoTime,
          GoValue.isGoDuration, GoValue.isGoJSONRaw]

/-- Witness for C8: the theorem applied at StringKind and a concrete string
value. -/
theorem validateValueType_matches_documented_acceptance_witness :
    (Kind.ValidateValueType StringKind (GoValue.str "hello") = Except.ok ()) ↔
      documentedAcceptance StringKind (GoValue.str "hello") = true :=
  (validateValueType_matches_documented_acceptance StringKind (GoValue.str "hello")
    (by decide) (by decide) (by decide)).1

/-- C9: `KindForGoValue` is total (every value maps to exactly one kind), it
never returns IntegerKind, DecimalKind, Bech32AddressKind, or EnumKind, and
every value outside the recognized concretely-typed natives falls back to
JSONKind. -/
theorem kindForGoValue_total_and_fallback (v : GoValue) :
    (∃! k : Kind, KindForGoValue v = k) ∧
    KindForGoValue v ≠ IntegerKind ∧
    KindForGoValue v ≠ DecimalKind ∧
    KindForGoValue v ≠ Bech32AddressKind ∧
    KindForGoValue v ≠ EnumKind ∧
    (recognizedNative v = false → KindForGoValue v = JSONKind) := by
  refine ⟨⟨KindForGoValue v, rfl, fun y hy => hy.symm⟩, ?_⟩
  cases v <;>
    simp [KindForGoValue, recognizedNative,
      GoValue.isGoString, GoValue.isStringer, GoValue.isGoBytes,
      GoValue.isGoInt8, GoValue.isGoUint8, GoValue.isGoInt16,
      GoValue.isGoUint16, GoValue.isGoInt32, GoValue.isGoUint32,
      GoValue.isGoInt64, GoValue.isGoUint64, GoValue.isGoFloat32,
      GoValue.isGoFloat64, GoValue.isGoBool, GoValue.isGoTime,
      GoValue.isGoDuration, GoValue.isGoJSONRaw,
      StringKind, BytesKind, Int8Kind, Uint8Kind, Int16Kind, Uint16Kind,
      Int32Kind, Uint32Kind, Int64Kind, Uint64Kind, IntegerKind, DecimalKind,
      BoolKind, TimeKind, DurationKind, Float32Kind, Float64Kind,
      Bech32AddressKind, EnumKind, JSONKind]

/-- Witness for C9: the theorem applied at an unrecognized value, whose
inferred kind is JSONKind. -/
theorem kindForGoValue_total_and_fallback_witness :
    KindForGoValue (GoValue.otherValue "mystruct") = JSONKind :=
  (kindForGoValue_total_and_fallback (GoValue.otherValue "mystruct")).2.2.2.2.2 (by decide)

/-- C10: kind inference is consistent with validation: for every Go value,
the inferred kind passes `Kind.Validate` (it is never InvalidKind) and
`ValidateValueType` accepts the value at its inferred kind. -/
theorem kindForGoValue_consistent_with_validation (v : GoValue) :
    Kind.Validate (KindForGoValue v) = Except.ok () ∧
    Kind.ValidateValueType (KindForGoValue v) v = Except.ok () := by
  cases v <;> exact ⟨rfl, rfl⟩

/-! ## Theorems about the sync guard -/

/-- C1: for a target with `lastBlockPersisted ≥ 1`, when the first observed
block-start has height `H` with `lastBlockPersisted + 1 ≠ H`, the guard
returns a fatal error whose message includes both the persisted height and
the observed height, and performs no catch-up sync (and forwards nothing to
the underlying listener). -/
theorem sync_guard_out_of_sync_fatal (lastBlockPersisted : Int)
    (listener : Listener) (env : SyncEnv) (moduleFilter : ModuleFilterConfig)
    (data : StartBlockData)
    (hpers : 1 ≤ lastBlockPersisted)
    (hgap : lastBlockPersisted + 1 ≠ (data.Height : Int)) :
    addSyncAndSanityCheck lastBlockPersisted listener env moduleFilter false data =
      { result := Except.error (outOfSyncMessage lastBlockPersisted data.Height),
        inited := false,
        trace := [] } ∧
    (∃ a b c, outOfSyncMessage lastBlockPersisted data.Height =
        a ++ toString lastBlockPersisted ++ b ++ toString data.Height ++ c) := by
  constructor
  · have hne : lastBlockPersisted ≠ -1 := by omega
    have hnz : ¬ lastBlockPersisted = 0 := by omega
    unfold addSyncAndSanityCheck guardedStartBlock doSyncAndSanityCheck
    rw [if_neg hne]
    simp only [Bool.false_eq_true, if_false]
    rw [if_neg hnz, if_pos hgap]
  · exact ⟨"fatal error: indexer is out of sync, last block persisted: ",
      ", current block height: ", "", by simp [outOfSyncMessage]⟩

/-- Witness for C1: the theorem applied at `lastBlockPersisted = 5` and an
observed first height of 7. -/
theorem sync_guard_out_of_sync_fatal_witness :
    addSyncAndSanityCheck 5 { StartBlock := none }
        { sourceHeight := 6, syncResult := Except.ok () }
        { includeModules := none, excludeModules := none } false { Height := 7 } =
      { result := Except.error (outOfSyncMessage 5 7), inited := false, trace := [] } :=
  (sync_guard_out_of_sync_fatal 5 { StartBlock := none }
    { sourceHeight := 6, syncResult := Except.ok () }
    { includeModules := none, excludeModules := none } { Height := 7 }
    (by decide) (by decide)).1

/-- C2: for a target with `lastBlockPersisted = 0`, when the first observed
block-start has height `H ≠ 1` and the Sync Source reflects state as of
height `H - 1`, exactly one catch-up sync call is made, covering heights 1
through `H - 1` and scoped by the target's module filter; when the sync
succeeds, the guard transitions and forwards the current event to the
underlying listener (steady-state dispatch resumes). -/
theorem sync_guard_catch_up (listener : Listener) (env : SyncEnv)
    (moduleFilter : ModuleFilterConfig) (data : StartBlockData)
    (hH : data.Height ≠ 1)
    (hsrc : env.sourceHeight = data.Height - 1) :
    ((addSyncAndSanityCheck 0 listener env moduleFilter false data).trace.filter
        GuardEvent.isCatchUpSync =
      [GuardEvent.catchUpSync moduleFilter 1 (data.Height - 1)]) ∧
    (env.syncResult = Except.ok () →
      addSyncAndSanityCheck 0 listener env moduleFilter false data =
        { result := callUnderlying listener.StartBlock data,
          inited := true,
          trace := GuardEvent.catchUpSync moduleFilter 1 (data.Height - 1) ::
            startBlockTrace listener.StartBlock data }) := by
  obtain ⟨src, res⟩ := env
  simp only at hsrc
  subst hsrc
  constructor
  · rcases res with e | u
    · simp [addSyncAndSanityCheck, guardedStartBlock, doSyncAndSanityCheck,
        decodingSync, hH, GuardEvent.isCatchUpSync]
    · rcases hsb : listener.StartBlock with _ | f <;>
        simp [addSyncAndSanityCheck, guardedStartBlock, doSyncAndSanityCheck,
          decodingSync, hH, hsb, startBlockTrace, GuardEvent.isCatchUpSync]
  · intro hok
    simp only at hok
    subst hok
    simp [addSyncAndSanityCheck, guardedStartBlock, doSyncAndSanityCheck,
      decodingSync, hH]

/-- Witness for C2: the theorem applied with `lastBlockPersisted = 0`, first
observed height 10, and a sync source at height 9: exactly one replay call
covering heights 1 through 9 scoped to the target's filter, then dispatch of
height 10. -/
theorem sync_guard_catch_up_witness :
    ((addSyncAndSanityCheck 0 { StartBlock := none }
        { sourceHeight := 9, syncResult := Except.ok () }
        { includeModules := some ["bank"], excludeModules := none }
        false { Height := 10 }).trace.filter GuardEvent.isCatchUpSync =
      [GuardEvent.catchUpSync
        { includeModules := some ["bank"], excludeModules := none } 1 (10 - 1)]) ∧
    (addSyncAndSanityCheck 0 { StartBlock := none }
        { sourceHeight := 9, syncResult := Except.ok () }
        { includeModules := some ["bank"], excludeModules := none }
        false { Height := 10 } =
      { result := callUnderlying none { Height := 10 },
        inited := true,
        trace := GuardEvent.catchUpSync
            { includeModules := some ["bank"], excludeModules := none } 1 (10 - 1) ::
          startBlockTrace none { Height := 10 } }) :=
  ⟨(sync_guard_catch_up { StartBlock := none }
      { sourceHeight := 9, syncResult := Except.ok () }
      { includeModules := some ["bank"], excludeModules := none }
      { Height := 10 } (by decide) (by decide)).1,
   (sync_guard_catch_up { StartBlock := none }
      { sourceHeight := 9, syncResult := Except.ok () }
      { includeModules := some ["bank"], excludeModules := none }
      { Height := 10 } (by decide) (by decide)).2 rfl⟩

/-- C3: the guard performs no catch-up sync and introduces no error on the
first observed block-start in each of the three in-sync cases: a target with
`lastBlockPersisted = -1` (check skipped entirely, the listener behaves as the
unchanged original for every event), a target with `lastBlockPersisted = 0`
observing height 1 (genesis), and a target with `lastBlockPersisted ≥ 1`
observing the contiguous height `lastBlockPersisted + 1`. -/
theorem sync_guard_no_replay_in_sync_cases (lastBlockPersisted : Int)
    (listener : Listener) (env : SyncEnv) (moduleFilter : ModuleFilterConfig)
    (data : StartBlockData) (inited : Bool) :
    (addSyncAndSanityCheck (-1) listener env moduleFilter inited data =
      { result := callUnderlying listener.StartBlock data,
        inited := inited,
        trace := startBlockTrace listener.StartBlock data }) ∧
    (addSyncAndSanityCheck 0 listener env moduleFilter false { Height := 1 } =
      { result := callUnderlying listener.StartBlock { Height := 1 },
        inited := true,
        trace := startBlockTrace listener.StartBlock { Height := 1 } }) ∧
    (1 ≤ lastBlockPersisted → lastBlockPersisted + 1 = (data.Height : Int) →
      addSyncAndSanityCheck lastBlockPersisted listener env moduleFilter false data =
        { result := callUnderlying listener.StartBlock data,
          inited := true,
          trace := startBlockTrace listener.StartBlock data }) := by
  refine ⟨?_, ?_, ?_⟩
  · simp [addSyncAndSanityCheck]
  · simp [addSyncAndSanityCheck, guardedStartBlock, doSyncAndSanityCheck]
  · intro hpers hcontig
    have hne : lastBlockPersisted ≠ -1 := by omega
    have hnz : ¬ lastBlockPersisted = 0 := by omega
    unfold addSyncAndSanityCheck guardedStartBlock doSyncAndSanityCheck
    rw [if_neg hne]
    simp only [Bool.false_eq_true, if_false]
    rw [if_neg hnz, if_neg (by omega : ¬ lastBlockPersisted + 1 ≠ (data.Height : Int))]
    simp

/-- Witness for C3: the theorem applied at `lastBlockPersisted = 5` observing
the contiguous height 6. -/
theorem sync_guard_no_replay_in_sync_cases_witness :
    addSyncAndSanityCheck 5 { StartBlock := none }
        { sourceHeight := 5, syncResult := Except.ok () }
        { includeModules := none, excludeModules := none } false { Height := 6 } =
      { result := callUnderlying none { Height := 6 },
        inited := true,
        trace := startBlockTrace none { Height := 6 } } :=
  (sync_guard_no_replay_in_sync_cases 5 { StartBlock := none }
    { sourceHeight := 5, syncResult := Except.ok () }
    { includeModules := none, excludeModules := none }
    { Height := 6 } false).2.2 (by decide) (by decide)

/-- C4: the sync-and-sanity check runs at most once: a successful check on the
first block-start sets the once-flag, and every block-start handled with the
flag set invokes the underlying StartBlock callback directly, with no re-check
and no further catch-up sync (this also holds for `lastBlockPersisted = -1`
targets, which are never checked at all). -/
theorem sync_guard_check_runs_once (lastBlockPersisted : Int)
    (listener : Listener) (env : SyncEnv) (moduleFilter : ModuleFilterConfig)
    (dataFirst dataNext : StartBlockData) :
    ((doSyncAndSanityCheck lastBlockPersisted dataFirst env moduleFilter).1 =
        Except.ok () → lastBlockPersisted ≠ -1 →
      (addSyncAndSanityCheck lastBlockPersisted listener env moduleFilter
          false dataFirst).inited = true) ∧
    (addSyncAndSanityCheck lastBlockPersisted listener env moduleFilter
        true dataNext =
      { result := callUnderlying listener.StartBlock dataNext,
        inited := true,
        trace := startBlockTrace listener.StartBlock dataNext }) := by
  constructor
  · intro hok hne
    unfold addSyncAndSanityCheck guardedStartBlock
    rw [if_neg hne]
    simp only [Bool.false_eq_true, if_false]
    rcases hdo : doSyncAndSanityCheck lastBlockPersisted dataFirst env moduleFilter
      with ⟨r, tr⟩
    rw [hdo] at hok
    simp only at hok
    subst hok
    rfl
  · by_cases hne : lastBlockPersisted = -1
    · subst hne
      simp [addSyncAndSanityCheck]
    · unfold addSyncAndSanityCheck guardedStartBlock
      rw [if_neg hne]
      simp

/-- Witness for C4: the theorem applied at `lastBlockPersisted = 5` with a
successful first check at height 6. -/
theorem sync_guard_check_runs_once_witness :
    (addSyncAndSanityCheck 5 { StartBlock := none }
        { sourceHeight := 5, syncResult := Except.ok () }
        { includeModules := none, excludeModules := none }
        false { Height := 6 }).inited = true :=
  (sync_guard_check_runs_once 5 { StartBlock := none }
    { sourceHeight := 5, syncResult := Except.ok () }
    { includeModules := none, excludeModules := none }
    { Height := 6 } { Height := 7 }).1 rfl (by decide)

/-! ## Theorems about the manager -/

/-- C5 counterexample: a concrete one-target StartManager run.  The per-target
listener built by StartManager is the sync guard wrapped OUTSIDE the module
filter (events reach the guard first), which differs from the claimed
composition with the module filter outermost. -/
theorem startManager_wrap_order_counterexample :
    (StartManager
        [("postgres", fun _ => Except.ok
          { Listener := WrappedListener.backend "pg", LastBlockPersisted := 0 })]
        (ConfigValue.rawJSON (Except.ok
          { Target := [("t1",
            { type := "postgres",
              Filter := { Modules :=
                { includeModules := some ["bank"], excludeModules := none } } })] }))).1.Listener =
      some (WrappedListener.moduleFilterWrap
        { includeModules := some (["bank"] ++ []), excludeModules := none }
        (WrappedListener.asyncMux
          [WrappedListener.syncGuardWrap 0
            { includeModules := some ["bank"], excludeModules := none }
            (WrappedListener.moduleFilterWrap
              { includeModules := some ["bank"], excludeModules := none }
              (WrappedListener.backend "pg"))])) ∧
    WrappedListener.syncGuardWrap 0
        { includeModules := some ["bank"], excludeModules := none }
        (WrappedListener.moduleFilterWrap
          { includeModules := some ["bank"], excludeModules := none }
          (WrappedListener.backend "pg")) ≠
      WrappedListener.moduleFilterWrap
        { includeModules := some ["bank"], excludeModules := none }
        (WrappedListener.syncGuardWrap 0
          { includeModules := some ["bank"], excludeModules := none }
          (WrappedListener.backend "pg")) :=
  ⟨rfl, fun h => WrappedListener.noConfusion h⟩

/-- C5 (amended): StartManager wraps the listener returned by the target's
initializer with the Module Filter first and then the Sync Guard, so that in
the per-target event path each event passes through the sync guard before the
module filter and then the backend listener (when `lastBlockPersisted = -1`
the sync guard adds no layer and only the module filter wraps the backend). -/
theorem startManager_wrap_order_amended (filter : FilterConfig)
    (lastBlockPersisted : Int) (backendListener : WrappedListener) :
    (lastBlockPersisted ≠ -1 →
      buildTargetListener filter lastBlockPersisted backendListener =
        WrappedListener.syncGuardWrap lastBlockPersisted filter.Modules
          (WrappedListener.moduleFilterWrap filter.Modules backendListener)) ∧
    (lastBlockPersisted = -1 →
      buildTargetListener filter lastBlockPersisted backendListener =
        WrappedListener.moduleFilterWrap filter.Modules backendListener) := by
  constructor <;> intro h <;>
    simp [buildTargetListener, addSyncAndSanityCheckWrap, FilterConfig.Apply, h]

/-- Witness for C5 (amended): the theorem applied at a persisting target
(`lastBlockPersisted = 0`) and at a non-persisting one (`-1`). -/
theorem startManager_wrap_order_amended_witness :
    (buildTargetListener
        { Modules := { includeModules := none, excludeModules := none } } 0
        (WrappedListener.backend "pg") =
      WrappedListener.syncGuardWrap 0
        { includeModules := none, excludeModules := none }
        (WrappedListener.moduleFilterWrap
          { includeModules := none, excludeModules := none }
          (WrappedListener.backend "pg"))) ∧
    (buildTargetListener
        { Modules := { includeModules := none, excludeModules := none } } (-1)
        (WrappedListener.backend "pg") =
      WrappedListener.moduleFilterWrap
        { includeModules := none, excludeModules := none }
        (WrappedListener.backend "pg")) :=
  ⟨(startManager_wrap_order_amended
      { Modules := { includeModules := none, excludeModules := none } } 0
      (WrappedListener.backend "pg")).1 (by decide),
   (startManager_wrap_order_amended
      { Modules := { includeModules := none, excludeModules := none } } (-1)
      (WrappedListener.backend "pg")).2 rfl⟩

/-- Helper: when the per-target loop succeeds, every configured target passed
all three checks (type resolution, filter validation, initialization). -/
theorem processTargets_ok_all_pass {registry : IndexerRegistry}
    {ts : List (String × Config)}
    {out : List WrappedListener × List ModuleFilterConfig}
    (hok : processTargets registry ts = Except.ok out)
    {p : String × Config} (hmem : p ∈ ts) :
    ∃ f res, registry.lookup p.2.type = some f ∧
      p.2.Filter.Validate = Except.ok () ∧ f p.2 = Except.ok res := by
  induction ts generalizing out with
  | nil => cases hmem
  | cons hd tl ih =>
    obtain ⟨targetName, targetCfg⟩ := hd
    rw [processTargets] at hok
    cases hlook : registry.lookup targetCfg.type with
    | none =>
      simp only [hlook] at hok
      exact Except.noConfusion hok
    | some f =>
      simp only [hlook] at hok
      cases hval : targetCfg.Filter.Validate with
      | error e =>
        simp only [hval] at hok
        exact Except.noConfusion hok
      | ok u =>
        cases u
        simp only [hval] at hok
        cases hinit : f targetCfg with
        | error e =>
          simp only [hinit] at hok
          exact Except.noConfusion hok
        | ok res =>
          simp only [hinit] at hok
          cases hrest : processTargets registry tl with
          | error e =>
            simp only [hrest] at hok
            exact Except.noConfusion hok
          | ok out' =>
            rcases List.mem_cons.mp hmem with h | hmemtl
            · subst h
              exact ⟨f, res, hlook, hval, hinit⟩
            · exact ih hrest hmemtl

/-- C6: StartManager is all-or-nothing: every run returns either a nil error
together with a fully built ManagerResult (a root listener and a root module
filter are exposed), or a non-nil error together with the zero-valued
ManagerResult (no listener exposed); in particular an unconvertible
configuration, an unresolvable target type, an invalid filter, and an
initializer error each abort the whole startup. -/
theorem startManager_all_or_nothing (registry : IndexerRegistry)
    (config : ConfigValue) :
    ((StartManager registry config).2.isSome = true →
      (StartManager registry config).1 = zeroManagerResult) ∧
    ((StartManager registry config).2 = none →
      (StartManager registry config).1.Listener.isSome = true ∧
      (StartManager registry config).1.ModuleFilter.isSome = true) ∧
    (∀ e, unmarshalConfig config = Except.error e →
      (StartManager registry config).2 = some e) ∧
    (∀ mc, unmarshalConfig config = Except.ok mc →
      ∀ p ∈ mc.Target,
        (registry.lookup p.2.type = none ∨
          (∃ e, p.2.Filter.Validate = Except.error e) ∨
          (∃ f e, registry.lookup p.2.type = some f ∧ f p.2 = Except.error e)) →
        (StartManager registry config).2.isSome = true) := by
  cases hum : unmarshalConfig config with
  | error e =>
    refine ⟨?_, ?_, ?_, ?_⟩
    · intro _
      simp [StartManager, hum]
    · intro h
      simp [StartManager, hum] at h
    · intro e' he'
      injection he' with h
      subst h
      simp [StartManager, hum]
    · intro mc hmc
      exact absurd hmc (by simp)
  | ok mc =>
    cases hpt : processTargets registry mc.Target with
    | error e =>
      refine ⟨?_, ?_, ?_, ?_⟩
      · intro _
        simp [StartManager, hum, hpt]
      · intro h
        simp [StartManager, hum, hpt] at h
      · intro e' he'
        exact absurd he' (by simp)
      · intro mc' hmc' q hq hbad
        simp [StartManager, hum, hpt]
    | ok out =>
      refine ⟨?_, ?_, ?_, ?_⟩
      · intro h
        obtain ⟨ls, fs⟩ := out
        simp [StartManager, hum, hpt] at h
      · intro _
        obtain ⟨ls, fs⟩ := out
        simp [StartManager, hum, hpt]
      · intro e' he'
        exact absurd he' (by simp)
      · intro mc' hmc' q hq hbad
        injection hmc' with h
        subst h
        obtain ⟨f, res, hlook, hval, hinit⟩ := processTargets_ok_all_pass hpt hq
        rcases hbad with h | ⟨e, h⟩ | ⟨f', e, hf', h⟩
        · rw [hlook] at h
          exact Option.noConfusion h
        · rw [hval] at h
          exact Except.noConfusion h
        · rw [hlook] at hf'
          cases hf'
          rw [hinit] at h
          exact Except.noConfusion h

/-- Witness for C6: an unconvertible configuration value aborts the whole
startup with a descriptive error and the zero-valued ManagerResult. -/
theorem startManager_all_or_nothing_witness :
    (StartManager [] (ConfigValue.otherValue "string")).2 =
      some "can't convert string to indexer.ManagerConfig" ∧
    (StartManager [] (ConfigValue.otherValue "string")).1 = zeroManagerResult :=
  ⟨(startManager_all_or_nothing [] (ConfigValue.otherValue "string")).2.2.1
      "can't convert string to indexer.ManagerConfig" rfl,
   (startManager_all_or_nothing [] (ConfigValue.otherValue "string")).1 (by rfl)⟩
